import Mathlib

/-!
Shallow embedding of the two components of this repository:
the Flask health/readiness service (kubernetes-demo-app/app/app.py)
and the AWS cost notifier job (lambda-cost-notifier/src/lambda_function.py).
Times are modelled as rationals (Python floats), durations of sleeps as
naturals (seconds), and external collaborators (DynamoDB, Cost Explorer,
SES) as explicit function parameters returning Except values.
-/

namespace K8sApp

/-- Round scale * q to the nearest integer (halves up), as the floor of
scale * q + 1/2, computed on the numerator and denominator. -/
def round_scaled (scale : ℤ) (q : ℚ) : ℤ :=
  Int.ediv (2 * scale * q.num + (q.den : ℤ)) (2 * (q.den : ℤ))

/-- Decimal rendering with one digit after the point, as Python does
for a format spec of one fixed decimal, rounding to the nearest tenth. -/
def fmt1 (q : ℚ) : String :=
  let tenths : ℤ := round_scaled 10 q
  (if tenths < 0 then "-" else "") ++
    toString (tenths.natAbs / 10) ++ "." ++ toString (tenths.natAbs % 10)

/-- Global application state of app.py: the module-level ready flag and
the startup timestamp captured at process start. -/
structure AppState where
  app_ready : Bool
  startup_time : ℚ
deriving DecidableEq

/-- State at process start: app_ready = True, startup_time = time.time(). -/
def init_state (t : ℚ) : AppState := ⟨true, t⟩

/-- signal_handler (app.py lines 31-38): sets the global app_ready to False. -/
def signal_handler (s : AppState) : AppState := { s with app_ready := false }

/-- Status field of a /healthz response. -/
inductive HealthStatus where
  | healthy
  | unhealthy
deriving DecidableEq

/-- Response of the /healthz handler: status, HTTP code, optional error text. -/
structure HealthResponse where
  status : HealthStatus
  code : ℕ
  error : Option String
deriving DecidableEq

/-- health_check (app.py lines 107-145): computes uptime = now - startup_time,
raises (returning unhealthy, 500) if the uptime is negative or the ready flag
has been cleared by a shutdown signal; otherwise healthy, 200. -/
def health_check (s : AppState) (now : ℚ) : HealthResponse :=
  let uptime := now - s.startup_time
  if uptime < 0 then
    ⟨.unhealthy, 500, some ("Invalid uptime calculation")⟩
  else if !s.app_ready then
    ⟨.unhealthy, 500, some ("Application shutting down")⟩
  else
    ⟨.healthy, 200, none⟩

/-- Status field of a /readiness response. -/
inductive ReadyStatus where
  | ready
  | not_ready
deriving DecidableEq

/-- Response of the /readiness handler: status, HTTP code, optional reason. -/
structure ReadinessResponse where
  status : ReadyStatus
  code : ℕ
  reason : Option String
deriving DecidableEq

/-- The reason string of the minimum-uptime branch of readiness_check
(app.py line 168), citing the observed uptime and the required minimum. -/
def min_uptime_reason (uptime : ℚ) (min_uptime : ℕ) : String :=
  "Minimum uptime not reached (" ++ fmt1 uptime ++ "s < " ++
    toString min_uptime ++ "s)"

/-- readiness_check (app.py lines 148-195): 503 not_ready when the ready flag
is cleared, 503 not_ready when uptime is below MIN_UPTIME_SECONDS, else 200. -/
def readiness_check (s : AppState) (now : ℚ) (min_uptime : ℕ) : ReadinessResponse :=
  if !s.app_ready then
    ⟨.not_ready, 503, some ("Application not ready to serve traffic")⟩
  else
    let uptime := now - s.startup_time
    if uptime < (min_uptime : ℚ) then
      ⟨.not_ready, 503, some (min_uptime_reason uptime min_uptime)⟩
    else
      ⟨.ready, 200, none⟩

/-- The operations that can touch the process state: the two registered
signals (both bound to signal_handler, app.py lines 42-43) and HTTP request
handling, which never writes the global state. -/
inductive Op where
  | sigterm
  | sigint
  | httpRequest
deriving DecidableEq

/-- Effect of one operation on the global state: only the signal handlers
write app_ready; no request handler mutates the globals. -/
def step (s : AppState) (o : Op) : AppState :=
  match o with
  | .sigterm => signal_handler s
  | .sigint => signal_handler s
  | .httpRequest => s

/-- Run a sequence of operations from a state. -/
def run (s : AppState) (ops : List Op) : AppState := ops.foldl step s

end K8sApp

namespace CostNotifier

/-- Zero-padded two-digit rendering of a natural below 100. -/
def pad2 (n : ℕ) : String :=
  if n < 10 then "0" ++ toString n else toString n

/-- Decimal rendering with two digits after the point, as Python does for
a format spec of two fixed decimals, rounding to the nearest cent. -/
def fmt2 (q : ℚ) : String :=
  let cents : ℤ := K8sApp.round_scaled 100 q
  (if cents < 0 then "-" else "") ++
    toString (cents.natAbs / 100) ++ "." ++ pad2 (cents.natAbs % 100)

/-- An error raised by an external AWS call: either a botocore ClientError
carrying an error code, or any other exception carrying a message. -/
inductive OpError where
  | clientError (code : String)
  | otherError (msg : String)
deriving DecidableEq

/-- Outcome of a retry loop: the returned value, or the message of the
CostNotifierError it raises. -/
inductive LoopResult (α : Type) where
  | ok (v : α)
  | err (msg : String)
deriving DecidableEq

/-- Observable behaviour of one run of a retry loop: its outcome, how many
times the operation was invoked, and the sleep durations (seconds) in order. -/
structure Trace (α : Type) where
  result : LoopResult α
  calls : ℕ
  sleeps : List ℕ
deriving DecidableEq

/-- The shared retry loop shape of get_cost_data and send_email
(lambda_function.py lines 72-106 and 195-232): for each attempt index in
range(max_retries), invoke the operation; on success return; on a
ClientError whose code is retryable while attempts remain, sleep
2 ^ attempt seconds and continue; on a ClientError otherwise raise the
client wrap of the code; on any other exception, retry while attempts
remain, else raise the other wrap of the message. An empty range raises
the exhausted message (dead code for max_retries = 3). -/
def retry_go {α : Type} (retryable : List String) (max_retries : ℕ)
    (wrap_client wrap_other : String → String)
    (op : ℕ → Except OpError α) : List ℕ → Trace α
  | [] => ⟨.err ("Exhausted all retry attempts"), 0, []⟩
  | attempt :: rest =>
    match op attempt with
    | .ok v => ⟨.ok v, 1, []⟩
    | .error (.clientError code) =>
      if code ∈ retryable ∧ attempt < max_retries - 1 then
        let t := retry_go retryable max_retries wrap_client wrap_other op rest
        ⟨t.result, t.calls + 1, 2 ^ attempt :: t.sleeps⟩
      else
        ⟨.err (wrap_client code), 1, []⟩
    | .error (.otherError msg) =>
      if attempt < max_retries - 1 then
        let t := retry_go retryable max_retries wrap_client wrap_other op rest
        ⟨t.result, t.calls + 1, 2 ^ attempt :: t.sleeps⟩
      else
        ⟨.err (wrap_other msg), 1, []⟩

/-- Retryable Cost Explorer error codes (lambda_function.py line 92). -/
def cost_retryable_codes : List String := ["Throttling", "RequestLimitExceeded"]

/-- Retryable SES error codes (lambda_function.py line 218). -/
def ses_retryable_codes : List String := ["Throttling", "SendingPausedException"]

/-- Message of the CostNotifierError raised for a non-retried Cost Explorer
ClientError (line 98). -/
def wrap_cost_client (code : String) : String := "Cost Explorer API failed: " ++ code

/-- Message of the CostNotifierError raised for a non-retried generic error
in get_cost_data (line 104). -/
def wrap_cost_other (msg : String) : String := "Failed to get cost data: " ++ msg

/-- Message of the CostNotifierError raised for a non-retried SES
ClientError (line 224). -/
def wrap_ses_client (code : String) : String := "SES email failed: " ++ code

/-- Message of the CostNotifierError raised for a non-retried generic error
in send_email (line 230). -/
def wrap_ses_other (msg : String) : String := "Failed to send email: " ++ msg

/-- max_retries = 3 in both retry loops (lines 66 and 189). -/
def max_retries : ℕ := 3

/-- One cost group of the Cost Explorer response: Keys = [service name] and
the parsed float of Metrics.BlendedCost.Amount. -/
structure Group where
  Keys : List String
  amount : ℚ
deriving DecidableEq

/-- One element of ResultsByTime: TimePeriod.Start, the parsed float of
Total.BlendedCost.Amount, and the service groups. -/
structure TimeResult where
  start_date : String
  total_amount : ℚ
  Groups : List Group
deriving DecidableEq

/-- The Cost Explorer response as consumed by format_email. -/
structure CostData where
  ResultsByTime : List TimeResult
deriving DecidableEq

/-- The SES send_email response as consumed by lambda_handler:
response.get of the MessageId key. -/
structure SESResponse where
  MessageId : Option String
deriving DecidableEq

/-- get_cost_data (lines 64-106): the retry loop over the Cost Explorer
call, here abstracted as the function op from attempt index to outcome. -/
def get_cost_data (op : ℕ → Except OpError CostData) : Trace CostData :=
  retry_go cost_retryable_codes max_retries wrap_cost_client wrap_cost_other op
    (List.range max_retries)

/-- Content of the notification email: subject, text body, HTML body. -/
structure EmailContent where
  subject : String
  text : String
  html : String
deriving DecidableEq

/-- send_email (lines 187-232): the retry loop over ses.send_email, here
abstracted as the function ses from the email content and attempt index to
the outcome of the SES call. -/
def send_email (email_content : EmailContent)
    (ses : EmailContent → ℕ → Except OpError SESResponse) : Trace SESResponse :=
  retry_go ses_retryable_codes max_retries wrap_ses_client wrap_ses_other
    (ses email_content) (List.range max_retries)

/-- The tracking-table row written after a successful send. -/
structure DailySendRecord where
  report_date : String
  sent_timestamp : String
  status : String
  email_message_id : String
deriving DecidableEq

/-- already_sent_today (lines 26-42): looks the computed report date up in
the tracking table, abstracted as the function get_item from the date key to
the lookup outcome; returns True only when an Item is present, False when
absent, and False when the lookup raises (the except branch at line 40). -/
def already_sent_today (get_item : String → Except String (Option DailySendRecord))
    (today : String) : Bool :=
  match get_item today with
  | .ok (some _) => true
  | .ok none => false
  | .error _ => false

/-- mark_as_sent (lines 45-61): writes the DailySendRecord for the computed
date; the outcome of the table put_item call is the parameter, and any
exception from it is caught and logged (lines 60-61), never re-raised, so
the function always returns normally. -/
def mark_as_sent (put_item : Except String Unit) : Except String Unit :=
  match put_item with
  | .ok _ => .ok ()
  | .error _ => .ok ()

/-- Insert a group into a list already sorted by cost descending, before
the first strictly cheaper element, so that among equal costs the earlier
original element stays first. -/
def insert_desc (g : Group) : List Group → List Group
  | [] => [g]
  | h :: t => if h.amount ≤ g.amount then g :: h :: t else h :: insert_desc g t

/-- Stable sort of the groups by cost descending. A stable sort is
determined by the key order, so this insertion sort computes exactly the
output of Python sorted with the cost key and reverse set (line 123). -/
def sort_desc : List Group → List Group
  | [] => []
  | g :: rest => insert_desc g (sort_desc rest)

/-- Sort the groups by cost descending (stable, as Python sorted with
reverse) and keep the first 10 (lines 123-127). -/
def top_services (groups : List Group) : List Group :=
  (sort_desc groups).take 10

/-- The literal 0.01 of the one-cent display threshold (lines 139, 163). -/
def cent_threshold : ℚ := ⟨1, 100, by decide, by decide⟩

/-- The text-body line of one service (line 140). -/
def service_line (g : Group) : String :=
  "  " ++ g.Keys.headD ("") ++ ": $" ++ fmt2 g.amount ++ "\n"

/-- The lines appended to the text body: one per listed service whose cost
is at least one cent (lines 136-140). -/
def text_service_lines (services : List Group) : List String :=
  services.filterMap fun g =>
    if cent_threshold ≤ g.amount then some (service_line g) else none

/-- The text body of the report email (lines 130-140). -/
def text_content (r : TimeResult) : String :=
  "AWS Daily Cost Report - " ++ r.start_date ++ "\n\nTotal Cost: $" ++
    fmt2 r.total_amount ++ "\n\nTop Services:\n" ++
    String.join (text_service_lines (top_services r.Groups))

/-- The HTML table row of one service (lines 164-169). -/
def html_row (g : Group) : String :=
  "\n            <tr>\n                <td>" ++ g.Keys.headD ("") ++
    "</td>\n                <td>$" ++ fmt2 g.amount ++
    "</td>\n            </tr>\n            "

/-- The rows appended to the HTML table: one per listed service whose cost
is at least one cent (lines 160-169). -/
def html_service_rows (services : List Group) : List String :=
  services.filterMap fun g =>
    if cent_threshold ≤ g.amount then some (html_row g) else none

/-- The HTML body up to the table rows (lines 143-158): heading with the
date and the full total cost, then the table header. -/
def html_header (r : TimeResult) : String :=
  "\n    <html>\n    <body>\n        <h2>AWS Daily Cost Report - " ++
    r.start_date ++ "</h2>\n        <h3>Total Cost: $" ++
    fmt2 r.total_amount ++ "</h3>\n        <h3>Top Services:</h3>\n" ++
    "        <table>\n            <tr><th>Service</th><th>Cost</th></tr>\n    "

/-- The HTML body after the table rows (lines 171-178). -/
def html_footer : String :=
  "\n        </table>\n        <p>Generated automatically by AWS Cost Notifier</p>\n    </body>\n    </html>\n    "

/-- format_email (lines 109-184): the no-data email when ResultsByTime is
empty, else subject from the full total, the text body and the HTML body
built over the top services. -/
def format_email (cost_data : CostData) : EmailContent :=
  match cost_data.ResultsByTime with
  | [] =>
    ⟨"AWS Daily Cost Report - No Data",
     "No cost data available for yesterday.",
     "<p>No cost data available for yesterday.</p>"⟩
  | result :: _ =>
    ⟨"AWS Daily Cost Report - $" ++ fmt2 result.total_amount,
     text_content result,
     html_header result ++
       String.join (html_service_rows (top_services result.Groups)) ++
       html_footer⟩

/-- The body of a successful lambda_handler return: the duplicate-prevented
payload (lines 245-251) or the sent payload (lines 274-281). -/
inductive HandlerBody where
  | dup (message : String) (duplicate_prevented : Bool)
  | sent (message : String) (execution_time : ℚ) (email_message_id : Option String)
deriving DecidableEq

/-- A lambda_handler return value: statusCode and body. -/
structure HandlerResponse where
  statusCode : ℕ
  body : HandlerBody
deriving DecidableEq

/-- Which external side effects an invocation performed: how many times the
Cost Explorer call and the SES call were invoked, and whether the tracking
write was attempted. -/
structure CallLog where
  cost_calls : ℕ
  email_calls : ℕ
  mark_attempted : Bool
deriving DecidableEq

/-- lambda_handler (lines 235-287): if the dedup check reports already sent,
return the duplicate-prevented 200 immediately; else query costs, format,
send, mark as sent, and return the success 200 with the execution time and
the message id; a CostNotifierError from either retry loop propagates
(re-raised at line 286), modelled as the Except.error of the pair. -/
def lambda_handler (already : Bool)
    (cost_op : ℕ → Except OpError CostData)
    (ses : EmailContent → ℕ → Except OpError SESResponse)
    (put_item : Except String Unit)
    (elapsed : ℚ) : Except String HandlerResponse × CallLog :=
  if already then
    (.ok ⟨200, .dup ("Cost report already sent today") true⟩, ⟨0, 0, false⟩)
  else
    let ct := get_cost_data cost_op
    match ct.result with
    | .err e => (.error e, ⟨ct.calls, 0, false⟩)
    | .ok cost_data =>
      let email_content := format_email cost_data
      let et := send_email email_content ses
      match et.result with
      | .err e => (.error e, ⟨ct.calls, et.calls, false⟩)
      | .ok email_result =>
        match mark_as_sent put_item with
        | .error e => (.error e, ⟨ct.calls, et.calls, true⟩)
        | .ok _ =>
          (.ok ⟨200, .sent ("Cost notification sent successfully") elapsed
              email_result.MessageId⟩,
           ⟨ct.calls, et.calls, true⟩)

/-- The failure classification under which an attempt is followed by a
retry when attempts remain: a ClientError with a retryable code, or any
non-ClientError exception. -/
def retried_error (retryable : List String) : OpError → Prop
  | .clientError code => code ∈ retryable
  | .otherError _ => True

/-- The CostNotifierError message wrapping a given underlying error. -/
def wrap_error (wrap_client wrap_other : String → String) : OpError → String
  | .clientError code => wrap_client code
  | .otherError msg => wrap_other msg

/-- Example cost of the EC2 group: 73.45 dollars. -/
def ex_q_ec2 : ℚ := ⟨1469, 20, by decide, by decide⟩

/-- Example sub-cent cost: 0.004 dollars, below the display threshold. -/
def ex_q_small : ℚ := ⟨1, 250, by decide, by decide⟩

/-- Example full total: 123.45 dollars. -/
def ex_total : ℚ := ⟨2469, 20, by decide, by decide⟩

/-- Example service groups, deliberately not sorted by cost. -/
def ex_groups : List Group :=
  [⟨["Amazon S3"], 50⟩, ⟨["Amazon EC2"], ex_q_ec2⟩, ⟨["AWS Lambda"], ex_q_small⟩]

/-- Example ResultsByTime element. -/
def ex_result : TimeResult := ⟨"2024-09-16", ex_total, ex_groups⟩

/-- Example Cost Explorer response. -/
def ex_cd : CostData := ⟨[ex_result]⟩

end CostNotifier


open K8sApp CostNotifier

theorem run_app_ready_false (s : AppState) (ops : List Op)
    (h : s.app_ready = false) : (run s ops).app_ready = false := by
  induction ops generalizing s with
  | nil => simpa [run] using h
  | cons o rest ih =>
    show (run (step s o) rest).app_ready = false
    exact ih _ (by cases o <;> simp [step, signal_handler, h])

/-- Claim C1 fails on the code: after a termination signal, with a
non-negative uptime (now = 5, startupTime = 0), health_check reports
unhealthy even though now is not below startupTime, so the handler does
not report healthy regardless of the ready flag. -/
theorem C1_liveness_counterexample :
    (health_check (signal_handler (init_state 0)) 5).status = .unhealthy ∧
    (health_check (signal_handler (init_state 0)) 5).code = 500 ∧
    ¬ ((5 : ℚ) < (signal_handler (init_state 0)).startup_time) := by
  refine ⟨?_, ?_, ?_⟩ <;>
    norm_num [health_check, signal_handler, init_state]

/-- Claim C1 as amended: checkLiveness reports unhealthy exactly when
now < startupTime or the ready flag has been cleared by a termination
signal; the unhealthy report carries status code 500 and the healthy
report status code 200. -/
theorem C1_liveness_amended (s : AppState) (now : ℚ) :
    ((health_check s now).status = .unhealthy ↔
      (now < s.startup_time ∨ s.app_ready = false)) ∧
    ((health_check s now).status = .unhealthy → (health_check s now).code = 500) ∧
    ((health_check s now).status = .healthy → (health_check s now).code = 200) := by
  unfold health_check
  by_cases h1 : now - s.startup_time < 0
  · rw [sub_neg] at h1
    simp [sub_neg, h1]
  · rw [sub_neg] at h1
    by_cases h2 : s.app_ready
    · simp [sub_neg, h1, h2]
    · have h2f : s.app_ready = false := by simpa using h2
      simp [sub_neg, h1, h2f]

theorem C1_amended_witness :
    (health_check (signal_handler (init_state 3)) 7).status = .unhealthy :=
  (C1_liveness_amended (signal_handler (init_state 3)) 7).1.mpr (Or.inr rfl)

/-- Claim C2: after signal_handler has run, every later readiness_check,
whatever operations ran in between and whatever the uptime, reports
not_ready with status 503, and no operation ever sets the ready flag back
to true. -/
theorem C2_drain_is_permanent (s : AppState) (ops : List Op) (now : ℚ) (m : ℕ) :
    (run (signal_handler s) ops).app_ready = false ∧
    readiness_check (run (signal_handler s) ops) now m =
      ⟨.not_ready, 503, some ("Application not ready to serve traffic")⟩ := by
  have h := run_app_ready_false (signal_handler s) ops rfl
  exact ⟨h, by simp [readiness_check, h]⟩

/-- Claim C3: whenever the observed uptime now - startupTime is below the
configured minimum, readiness_check reports not_ready with status 503, and
(in the normal state, before any termination signal) the reason is the
minimum-uptime message citing both the observed and the required uptime. -/
theorem C3_min_uptime_gate (s : AppState) (now : ℚ) (m : ℕ)
    (h : now - s.startup_time < (m : ℚ)) :
    ((readiness_check s now m).status = .not_ready ∧
      (readiness_check s now m).code = 503) ∧
    (s.app_ready = true →
      (readiness_check s now m).reason =
        some (min_uptime_reason (now - s.startup_time) m)) := by
  unfold readiness_check
  by_cases hr : s.app_ready
  · simp [hr, h]
  · have hrf : s.app_ready = false := by simpa using hr
    simp [hrf]

theorem C3_witness :
    ((readiness_check (init_state 0) 3 5).status = .not_ready ∧
      (readiness_check (init_state 0) 3 5).code = 503) ∧
    (readiness_check (init_state 0) 3 5).reason = some (min_uptime_reason 3 5) := by
  have h := C3_min_uptime_gate (init_state 0) 3 5 (by norm_num [init_state])
  exact ⟨h.1, by simpa [init_state] using h.2 rfl⟩

theorem range_three : List.range 3 = [0, 1, 2] := rfl

/-- Claim C4: a first-attempt failure whose ClientError code is not in the
retryable set makes both retry loops raise the wrapped code at once: the
operation is invoked exactly once and no sleep happens. -/
theorem C4_nonretryable_is_immediate (c d : String)
    (cop : ℕ → Except OpError CostData) (content : EmailContent)
    (ses : EmailContent → ℕ → Except OpError SESResponse)
    (hc : c ∉ cost_retryable_codes) (hcop : cop 0 = .error (.clientError c))
    (hd : d ∉ ses_retryable_codes) (hses : ses content 0 = .error (.clientError d)) :
    get_cost_data cop = ⟨.err (wrap_cost_client c), 1, []⟩ ∧
    send_email content ses = ⟨.err (wrap_ses_client d), 1, []⟩ := by
  constructor
  · simp [get_cost_data, max_retries, range_three, retry_go, hcop, hc]
  · simp [send_email, max_retries, range_three, retry_go, hses, hd]

theorem C4_witness :
    get_cost_data (fun _ => .error (.clientError ("AccessDenied"))) =
      ⟨.err (wrap_cost_client ("AccessDenied")), 1, []⟩ ∧
    send_email ⟨("s"), ("t"), ("h")⟩
        (fun _ _ => .error (.clientError ("MessageRejected"))) =
      ⟨.err (wrap_ses_client ("MessageRejected")), 1, []⟩ :=
  C4_nonretryable_is_immediate ("AccessDenied") ("MessageRejected")
    (fun _ => .error (.clientError ("AccessDenied"))) ⟨("s"), ("t"), ("h")⟩
    (fun _ _ => .error (.clientError ("MessageRejected")))
    (by decide) rfl (by decide) rfl

/-- Claim C5: retryable ClientError failures on the first two attempts
followed by success on the third make both retry loops return the success
value after three invocations, having slept 2 ^ 0 = 1 second and then
2 ^ 1 = 2 seconds (backoff base one second). -/
theorem C5_retryable_then_success (c0 c1 d0 d1 : String) (v : CostData)
    (w : SESResponse) (cop : ℕ → Except OpError CostData)
    (content : EmailContent) (ses : EmailContent → ℕ → Except OpError SESResponse)
    (hc0 : c0 ∈ cost_retryable_codes) (hc1 : c1 ∈ cost_retryable_codes)
    (h0 : cop 0 = .error (.clientError c0)) (h1 : cop 1 = .error (.clientError c1))
    (h2 : cop 2 = .ok v)
    (hd0 : d0 ∈ ses_retryable_codes) (hd1 : d1 ∈ ses_retryable_codes)
    (g0 : ses content 0 = .error (.clientError d0))
    (g1 : ses content 1 = .error (.clientError d1))
    (g2 : ses content 2 = .ok w) :
    get_cost_data cop = ⟨.ok v, 3, [1, 2]⟩ ∧
    send_email content ses = ⟨.ok w, 3, [1, 2]⟩ := by
  constructor
  · simp [get_cost_data, max_retries, range_three, retry_go, h0, h1, h2, hc0, hc1]
  · simp [send_email, max_retries, range_three, retry_go, g0, g1, g2, hd0, hd1]

theorem C5_witness :
    get_cost_data
        (fun n => if n < 2 then .error (.clientError ("Throttling")) else .ok ⟨[]⟩) =
      ⟨.ok ⟨[]⟩, 3, [1, 2]⟩ ∧
    send_email ⟨("s"), ("t"), ("h")⟩
        (fun _ n =>
          if n < 2 then .error (.clientError ("Throttling")) else .ok ⟨some ("abc")⟩) =
      ⟨.ok ⟨some ("abc")⟩, 3, [1, 2]⟩ :=
  C5_retryable_then_success ("Throttling") ("Throttling") ("Throttling") ("Throttling")
    ⟨[]⟩ ⟨some ("abc")⟩
    (fun n => if n < 2 then .error (.clientError ("Throttling")) else .ok ⟨[]⟩)
    ⟨("s"), ("t"), ("h")⟩
    (fun _ n =>
      if n < 2 then .error (.clientError ("Throttling")) else .ok ⟨some ("abc")⟩)
    (by decide) (by decide) rfl rfl rfl (by decide) (by decide) rfl rfl rfl

/-- Claim C6: when all three attempts fail (the first two with a failure
that is retried: a retryable ClientError code or a non-ClientError error),
both retry loops raise a CostNotifierError wrapping the last underlying
error, after three invocations and the two backoff sleeps. -/
theorem C6_exhausted_wraps_last (e0 e1 e2 f0 f1 f2 : OpError)
    (cop : ℕ → Except OpError CostData) (content : EmailContent)
    (ses : EmailContent → ℕ → Except OpError SESResponse)
    (hr0 : retried_error cost_retryable_codes e0)
    (hr1 : retried_error cost_retryable_codes e1)
    (h0 : cop 0 = .error e0) (h1 : cop 1 = .error e1) (h2 : cop 2 = .error e2)
    (hs0 : retried_error ses_retryable_codes f0)
    (hs1 : retried_error ses_retryable_codes f1)
    (g0 : ses content 0 = .error f0) (g1 : ses content 1 = .error f1)
    (g2 : ses content 2 = .error f2) :
    get_cost_data cop =
      ⟨.err (wrap_error wrap_cost_client wrap_cost_other e2), 3, [1, 2]⟩ ∧
    send_email content ses =
      ⟨.err (wrap_error wrap_ses_client wrap_ses_other f2), 3, [1, 2]⟩ := by
  constructor
  · cases e0 <;> cases e1 <;> cases e2 <;>
      simp only [retried_error] at hr0 hr1 <;>
      simp [get_cost_data, max_retries, range_three, retry_go, h0, h1, h2,
        hr0, hr1, wrap_error]
  · cases f0 <;> cases f1 <;> cases f2 <;>
      simp only [retried_error] at hs0 hs1 <;>
      simp [send_email, max_retries, range_three, retry_go, g0, g1, g2,
        hs0, hs1, wrap_error]

theorem C6_witness :
    get_cost_data (fun _ => .error (.otherError ("boom"))) =
      ⟨.err (wrap_error wrap_cost_client wrap_cost_other (.otherError ("boom"))),
        3, [1, 2]⟩ ∧
    send_email ⟨("s"), ("t"), ("h")⟩ (fun _ _ => .error (.otherError ("boom"))) =
      ⟨.err (wrap_error wrap_ses_client wrap_ses_other (.otherError ("boom"))),
        3, [1, 2]⟩ :=
  C6_exhausted_wraps_last (.otherError ("boom")) (.otherError ("boom"))
    (.otherError ("boom")) (.otherError ("boom")) (.otherError ("boom"))
    (.otherError ("boom"))
    (fun _ => .error (.otherError ("boom"))) ⟨("s"), ("t"), ("h")⟩
    (fun _ _ => .error (.otherError ("boom")))
    trivial trivial rfl rfl rfl trivial trivial rfl rfl rfl

/-- Claim C7: the dedup lookup reports already-sent exactly when the store
lookup succeeds and finds a record for the date; it reports false both on a
successful lookup with no record and on a lookup error, and in every case
it returns a plain boolean, never propagating the error. -/
theorem C7_dedup_fail_open
    (get_item : String → Except String (Option DailySendRecord)) (today : String) :
    (already_sent_today get_item today = true ↔
      ∃ rec, get_item today = .ok (some rec)) ∧
    (get_item today = .ok none → already_sent_today get_item today = false) ∧
    (∀ e, get_item today = .error e → already_sent_today get_item today = false) := by
  rcases hg : get_item today with e | o
  · simp [already_sent_today, hg]
  · rcases o with _ | rec <;> simp [already_sent_today, hg]

theorem C7_witness :
    already_sent_today (fun _ => .error ("boom")) ("2024-09-16") = false :=
  (C7_dedup_fail_open (fun _ => .error ("boom")) ("2024-09-16")).2.2 ("boom") rfl

/-- Claim C8: when the dedup check reports already sent, lambda_handler
returns the duplicate-prevented 200 payload and the invocation performs no
cost query, no email send and no tracking write. -/
theorem C8_duplicate_prevented
    (get_item : String → Except String (Option DailySendRecord)) (today : String)
    (cop : ℕ → Except OpError CostData)
    (ses : EmailContent → ℕ → Except OpError SESResponse)
    (put_item : Except String Unit) (elapsed : ℚ)
    (h : already_sent_today get_item today = true) :
    lambda_handler (already_sent_today get_item today) cop ses put_item elapsed =
      (.ok ⟨200, .dup ("Cost report already sent today") true⟩, ⟨0, 0, false⟩) := by
  rw [h]
  rfl

theorem C8_witness :
    lambda_handler
        (already_sent_today
          (fun _ => .ok (some ⟨("2024-09-16"), ("ts"), ("sent"), ("mid")⟩))
          ("2024-09-16"))
        (fun _ => .error (.otherError ("x"))) (fun _ _ => .error (.otherError ("x")))
        (.ok ()) 0 =
      (.ok ⟨200, .dup ("Cost report already sent today") true⟩, ⟨0, 0, false⟩) :=
  C8_duplicate_prevented
    (fun _ => .ok (some ⟨("2024-09-16"), ("ts"), ("sent"), ("mid")⟩)) ("2024-09-16")
    (fun _ => .error (.otherError ("x"))) (fun _ _ => .error (.otherError ("x")))
    (.ok ()) 0 rfl

/-- Claim C9: mark_as_sent returns normally whatever the tracking write
does, and when the cost query and the email send succeed on their first
attempts, lambda_handler still returns the success 200 payload carrying the
execution time and the message id even though the tracking write failed. -/
theorem C9_mark_failure_swallowed (p : Except String Unit) (e : String)
    (cd : CostData) (w : SESResponse) (cop : ℕ → Except OpError CostData)
    (ses : EmailContent → ℕ → Except OpError SESResponse) (elapsed : ℚ)
    (hc : cop 0 = .ok cd) (hs : ses (format_email cd) 0 = .ok w) :
    mark_as_sent p = .ok () ∧
    lambda_handler false cop ses (.error e) elapsed =
      (.ok ⟨200, .sent ("Cost notification sent successfully") elapsed w.MessageId⟩,
       ⟨1, 1, true⟩) := by
  constructor
  · cases p <;> rfl
  · simp [lambda_handler, get_cost_data, send_email, max_retries, range_three,
      retry_go, hc, hs, mark_as_sent]

theorem C9_witness :
    mark_as_sent (.error ("x")) = .ok () ∧
    lambda_handler false (fun _ => .ok ⟨[]⟩) (fun _ _ => .ok ⟨some ("mid")⟩)
        (.error ("boom")) 0 =
      (.ok ⟨200, .sent ("Cost notification sent successfully") 0 (some ("mid"))⟩,
       ⟨1, 1, true⟩) :=
  C9_mark_failure_swallowed (.error ("x")) ("boom") ⟨[]⟩ ⟨some ("mid")⟩
    (fun _ => .ok ⟨[]⟩) (fun _ _ => .ok ⟨some ("mid")⟩) 0 rfl rfl

theorem filterMap_if {α β : Type} (p : α → Prop) [DecidablePred p] (f : α → β)
    (l : List α) :
    (l.filterMap fun a => if p a then some (f a) else none) =
      (l.filter fun a => decide (p a)).map f := by
  induction l with
  | nil => simp
  | cons a t ih => by_cases hp : p a <;> simp [hp, ih]

theorem insert_desc_mem (g x : Group) (l : List Group) :
    x ∈ insert_desc g l ↔ x = g ∨ x ∈ l := by
  induction l with
  | nil => simp [insert_desc]
  | cons h t ih =>
    by_cases hc : h.amount ≤ g.amount
    · simp [insert_desc, hc]
    · simp [insert_desc, hc, ih]
      tauto

theorem insert_desc_pairwise (g : Group) (l : List Group)
    (h : l.Pairwise fun a b => b.amount ≤ a.amount) :
    (insert_desc g l).Pairwise fun a b => b.amount ≤ a.amount := by
  induction l with
  | nil => simp [insert_desc]
  | cons hd t ih =>
    rcases List.pairwise_cons.mp h with ⟨hhd, ht⟩
    by_cases hc : hd.amount ≤ g.amount
    · simp only [insert_desc, if_pos hc]
      refine List.pairwise_cons.mpr ⟨?_, h⟩
      intro x hx
      rcases List.mem_cons.mp hx with rfl | hxt
      · exact hc
      · exact le_trans (hhd x hxt) hc
    · simp only [insert_desc, if_neg hc]
      refine List.pairwise_cons.mpr ⟨?_, ih ht⟩
      intro x hx
      rcases (insert_desc_mem g x t).mp hx with rfl | hxt
      · exact le_of_lt (lt_of_not_le hc)
      · exact hhd x hxt

theorem sort_desc_pairwise (l : List Group) :
    (sort_desc l).Pairwise fun a b => b.amount ≤ a.amount := by
  induction l with
  | nil => simp [sort_desc]
  | cons g rest ih => exact insert_desc_pairwise g _ ih

/-- Claim C10: on a non-empty cost result, the email lists at most 10
services, those listed are the most expensive ones (the kept list is
sorted by cost descending), every service below one cent is omitted from
both the text and the HTML bodies (the rendered entries are exactly the
kept services passing the one-cent filter), while the subject and the
total line are computed from the full total. -/
theorem C10_format_email_top10 (cd : CostData) (r : TimeResult)
    (rest : List TimeResult) (h : cd.ResultsByTime = r :: rest) :
    (format_email cd).subject = "AWS Daily Cost Report - $" ++ fmt2 r.total_amount ∧
    (format_email cd).text = text_content r ∧
    (format_email cd).html =
      html_header r ++ String.join (html_service_rows (top_services r.Groups)) ++
        html_footer ∧
    (top_services r.Groups).length ≤ 10 ∧
    (top_services r.Groups).Pairwise (fun a b => b.amount ≤ a.amount) ∧
    text_service_lines (top_services r.Groups) =
      ((top_services r.Groups).filter fun g => cent_threshold ≤ g.amount).map
        service_line ∧
    html_service_rows (top_services r.Groups) =
      ((top_services r.Groups).filter fun g => cent_threshold ≤ g.amount).map
        html_row := by
  refine ⟨?_, ?_, ?_, ?_, ?_, ?_, ?_⟩
  · simp [format_email, h]
  · simp [format_email, h]
  · simp [format_email, h]
  · exact List.length_take_le 10 (sort_desc r.Groups)
  · exact (sort_desc_pairwise r.Groups).sublist (List.take_sublist 10 _)
  · exact filterMap_if (fun g => cent_threshold ≤ g.amount) service_line _
  · exact filterMap_if (fun g => cent_threshold ≤ g.amount) html_row _

theorem C10_witness :
    (format_email ex_cd).subject = "AWS Daily Cost Report - $" ++ fmt2 ex_total ∧
    text_service_lines (top_services ex_groups) =
      [service_line ⟨["Amazon EC2"], ex_q_ec2⟩, service_line ⟨["Amazon S3"], 50⟩] ∧
    (top_services ex_groups).length ≤ 10 := by
  have h := C10_format_email_top10 ex_cd ex_result [] rfl
  exact ⟨h.1, by decide, h.2.2.2.1⟩
